import Mathlib

/-!
Verification of the functional-mcp core against its natural-language
specification.

The Python modules under `src/functional_mcp/` are shallowly embedded here:
pure functions become Lean functions, the stateful `AsyncRunner` becomes a
state record with explicit transition functions, Python exceptions become
`Except`/inductive outcome values, and the protocol collaborator (the FastMCP
client) becomes an explicit function parameter whose invocations are recorded
in a trace.
-/

namespace FMCP

/-- Model of the Python values that flow through tool arguments, schema
defaults and collaborator payloads.  Only scalar shapes are needed by the
properties under verification; a payload of any other shape can be named by a
string. -/
inductive Value where
  | null : Value
  | bool (b : Bool) : Value
  | int (n : Int) : Value
  | str (s : String) : Value
deriving DecidableEq, Repr

/-- Python `sep.join(parts)`. -/
def pyJoin (sep : String) : List String → String
  | [] => ""
  | [x] => x
  | x :: y :: rest => x ++ sep ++ pyJoin sep (y :: rest)

/-- Predicate `strContains hay needle` holds when `needle` occurs as a contiguous
substring of `hay` (Python `needle in hay`). -/
def strContains (hay needle : String) : Prop :=
  needle.toList <:+: hay.toList

instance (hay needle : String) : Decidable (strContains hay needle) :=
  List.decidableInfix needle.toList hay.toList

theorem strContains_of_eq_append (hay pre needle post : String)
    (h : hay = pre ++ needle ++ post) : strContains hay needle := by
  subst h
  refine ⟨pre.toList, post.toList, ?_⟩
  simp [String.toList, String.data_append]

/-! ## event_loop.py — `AsyncRunner` (the Bridge)

`AsyncRunner.__init__` starts a background thread owning a fresh event loop
and blocks on a startup barrier until the loop runs, so after construction
`loopInitialized = true` and `closed = false`.  `run` and `close` are embedded
as explicit state transitions; the coroutine handed to `run` is modelled by
the value it would produce on the background loop. -/

/-- The observable state of one `AsyncRunner`: whether `close()` has been
called, and whether the background loop was initialized (`self._loop`
non-`None`). -/
structure AsyncRunnerState where
  closed : Bool
  loopInitialized : Bool
deriving DecidableEq, Repr

/-- State of a freshly constructed `AsyncRunner`: `_start_background_loop`
has completed and set `self._loop`, and `_closed` is `False`. -/
def AsyncRunnerState.init : AsyncRunnerState :=
  { closed := false, loopInitialized := true }

/-- Method `AsyncRunner.run`: raises `RuntimeError("AsyncRunner is closed")` when the
runner is closed, raises when the loop was never initialized, and otherwise
submits the coroutine to the background loop and blocks for its result. -/
def AsyncRunnerState.run (st : AsyncRunnerState) (coroResult : Value) :
    Except String Value :=
  if st.closed then
    .error "AsyncRunner is closed"
  else if !st.loopInitialized then
    .error "Event loop not initialized"
  else
    .ok coroResult

/-- Method `AsyncRunner.close`: returns immediately when already closed; otherwise
marks the runner closed (and, in the source, stops the loop and joins the
thread with a bounded wait — neither changes the observable state modelled
here). -/
def AsyncRunnerState.close (st : AsyncRunnerState) : AsyncRunnerState :=
  if st.closed then st else { st with closed := true }

/-! ## tools.py — schemas, Tool, ToolCollection, create_tool -/

/-- One JSON-schema property, as read by tools.py and codegen.py:
`type`, `format`, `description`, `default` (`none` when the key is absent)
and, for arrays, the `items` sub-schema. -/
inductive PropSchema where
  | mk (type : Option String) (format : Option String)
      (description : Option String) (default : Option Value)
      (items : Option PropSchema)

def PropSchema.type : PropSchema → Option String
  | .mk t _ _ _ _ => t

def PropSchema.format : PropSchema → Option String
  | .mk _ f _ _ _ => f

def PropSchema.description : PropSchema → Option String
  | .mk _ _ d _ _ => d

def PropSchema.default : PropSchema → Option Value
  | .mk _ _ _ d _ => d

def PropSchema.items : PropSchema → Option PropSchema
  | .mk _ _ _ _ i => i

/-- A tool input schema: the `properties` mapping (a Python dict, so its keys
are distinct and ordered) and the `required` name list. -/
structure InputSchema where
  properties : List (String × PropSchema)
  required : List String

/-- The schema fields computed by `Tool.__init__` (tools.py lines 78-88):
`required = set(input_schema.get("required", []))` (embedded as `dedup`, the
claims compare these as sets) and
`optional_args = [k for k in properties if k not in required]`. -/
structure ToolSchemaM where
  name : String
  description : Option String
  input_schema : InputSchema
  required_args : List String
  optional_args : List String

def mkToolSchema (name : String) (description : Option String)
    (input_schema : InputSchema) : ToolSchemaM :=
  { name := name
    description := description
    input_schema := input_schema
    required_args := input_schema.required.dedup
    optional_args := (input_schema.properties.map Prod.fst).filter
      (fun k => decide (k ∉ input_schema.required)) }

/-- Python `repr` of a list of strings, as interpolated into the
`ToolCollection.__getattr__` error message (quotes are apostrophes). -/
def pyListRepr (keys : List String) : String :=
  "[" ++ pyJoin ", " (keys.map (fun k => "\x27" ++ k ++ "\x27")) ++ "]"

/-- Python `name.startswith("_")`. -/
def pyStartsWithUnderscore (s : String) : Bool :=
  match s.toList with
  | c :: _ => c = '_'
  | [] => false

/-- Lookup `ToolCollection.__getattr__` (tools.py lines 151-159): underscore names
raise `AttributeError("No attribute '...'")`; a known name returns its Tool;
an unknown name raises an AttributeError whose message lists every key of the
collection.  The collection itself is the dict `self._tools`. -/
def toolCollectionGetattr {α : Type} (tools : List (String × α))
    (name : String) : Except String α :=
  if pyStartsWithUnderscore name then
    .error ("No attribute \x27" ++ name ++ "\x27")
  else
    match tools.lookup name with
    | some t => .ok t
    | none =>
        .error ("No tool named \x27" ++ name ++ "\x27. Available: " ++
          pyListRepr (tools.map Prod.fst))

/-- Python truthiness for the modelled values. -/
def pyTruthy : Value → Bool
  | .null => false
  | .bool b => b
  | .int n => n != 0
  | .str s => s != ""

/-- One content block of a collaborator response; `text = none` models a
block without a `text` attribute. -/
structure ContentBlock where
  text : Option String
deriving DecidableEq, Repr

/-- The collaborator's `call_tool` result.  For `data` and
`structured_content` the source treats a missing attribute and a `None` value
identically (`hasattr(result, _) and result._ is not None`), so both are
modelled as `none`; `content = none` models a result without a `content`
attribute. -/
structure CallToolResult where
  data : Option Value
  structured_content : Option Value
  content : Option (List ContentBlock)
  is_error : Bool
deriving DecidableEq, Repr

/-- What the executor hands back to the caller on the non-raising paths. -/
inductive ToolReturn where
  | payload (v : Value)
  | text (s : String)
  | contentSeq (bs : List ContentBlock)
  | raw (r : CallToolResult)
deriving DecidableEq, Repr

/-- The response-normalization chain of `create_tool.executor`
(tools.py lines 326-337): prefer `result.data`, else
`result.structured_content`, else the first content block's text (or the
content sequence when there is no first text), else the raw result. -/
def normalizeResult (result : CallToolResult) : ToolReturn :=
  match result.data with
  | some v => .payload v
  | none =>
    match result.structured_content with
    | some v => .payload v
    | none =>
      match result.content with
      | some [] => .contentSeq []
      | some (b :: rest) =>
        match b.text with
        | some t => .text t
        | none => .contentSeq (b :: rest)
      | none => .raw result

/-- The per-call options that `Tool.__call__` consumes and forwards to the
executor as `_timeout`, `_progress_handler`, `_meta`, `_raise_on_error`. -/
structure CallOptions where
  timeout : Option Value
  progress_handler : Option Value
  meta : Option Value
  raise_on_error : Value
deriving DecidableEq, Repr

/-- One invocation of the collaborator's `client.call_tool`, with the
optional entries of `call_kwargs`. -/
structure ClientCall where
  name : String
  arguments : List (String × Value)
  timeout : Option Value
  progress_handler : Option Value
  meta : Option Value
deriving DecidableEq, Repr

/-- The collaborator: maps an invocation to a result or an exception. -/
def ClientFun : Type :=
  String → List (String × Value) → Option Value → Option Value →
    Option Value → Except String CallToolResult

/-- Observable outcome of one executor invocation. -/
inductive ExecOutcome where
  | ok (r : ToolReturn)
  | validationError (tool_name : String) (missing : Finset String)
  | errorResult (message : String)
  | toolError (tool_name : String) (message : String)
deriving DecidableEq

/-- Executor `create_tool.executor` (tools.py lines 275-341) after it has popped the
four `_`-prefixed option entries (modelled by receiving `opts` separately).
Returns the outcome together with the trace of collaborator invocations made,
so that "the collaborator is never contacted" is a statement about the trace.
`missing = required - set(kwargs.keys())`; when non-empty,
`MCPValidationError(name, ..., {"missing": list(missing)})` is raised before
the `try` block, carrying the tool name and the missing set.  Inside the
`try`, any exception from the collaborator becomes
`MCPToolError(name, str(e), e)`; when `raise_on_error` is falsy and the
result reports an error, a `{"error": True, "message": ...}` dict is returned
(reading `.text` off a block without that attribute, or `content` when the
attribute is absent, raises, which the same `except` turns into an
MCPToolError). -/
def executor (tool_name : String) (required : List String) (client : ClientFun)
    (kwargs : List (String × Value)) (opts : CallOptions) :
    ExecOutcome × List ClientCall :=
  let missing : Finset String :=
    required.toFinset \ (kwargs.map Prod.fst).toFinset
  if missing = ∅ then
    let call : ClientCall :=
      ⟨tool_name, kwargs, opts.timeout, opts.progress_handler, opts.meta⟩
    match client tool_name kwargs opts.timeout opts.progress_handler opts.meta with
    | .error e => (.toolError tool_name e, [call])
    | .ok result =>
      if !pyTruthy opts.raise_on_error && result.is_error then
        match result.content with
        | some (b :: _) =>
          match b.text with
          | some t => (.errorResult t, [call])
          | none => (.toolError tool_name "AttributeError: text", [call])
        | some [] => (.errorResult "Unknown error", [call])
        | none => (.toolError tool_name "AttributeError: content", [call])
      else
        (.ok (normalizeResult result), [call])
  else
    (.validationError tool_name missing, [])

/-- The four keyword-only parameter names of `Tool.__call__`
(tools.py lines 93-121). -/
def callOptionNames : List String :=
  ["timeout", "progress_handler", "meta", "raise_on_error"]

/-- Dispatch `Tool.__call__`: Python keyword binding sends the four option names to
the keyword-only parameters (with defaults `None`/`None`/`None`/`True`) and
every other keyword into `**kwargs`; the executor is then invoked on those
kwargs plus the `_`-prefixed options. -/
def toolCall (tool_name : String) (required : List String) (client : ClientFun)
    (args : List (String × Value)) : ExecOutcome × List ClientCall :=
  let opts : CallOptions :=
    { timeout := args.lookup "timeout"
      progress_handler := args.lookup "progress_handler"
      meta := args.lookup "meta"
      raise_on_error := (args.lookup "raise_on_error").getD (.bool true) }
  let kwargs := args.filter (fun kv => decide (kv.1 ∉ callOptionNames))
  executor tool_name required client kwargs opts

/-! ## transformation.py — ArgTransform and transform_tool -/

/-- A validated `ArgTransform` (transformation.py lines 14-67). -/
structure ArgTransform where
  name : Option String
  description : Option String
  default : Option Value
  default_factory : Option (Unit → Value)
  hide : Bool
  required : Option Bool
  type : Option String

/-- Construction of `ArgTransform`, running `model_post_init`'s three checks in
source order (a callable is always truthy, so `self.default_factory and not
self.hide` is `default_factory.isSome && !hide`; the pydantic field default
`None` and an explicitly passed `None` are indistinguishable, matching
`Option`). -/
def mkArgTransform (name description : Option String) (default : Option Value)
    (default_factory : Option (Unit → Value)) (hide : Bool)
    (required : Option Bool) (type : Option String) :
    Except String ArgTransform :=
  if default_factory.isSome && !hide then
    .error "default_factory requires hide=True"
  else if hide && default.isNone && default_factory.isNone then
    .error "hide=True requires default or default_factory"
  else if default.isSome && default_factory.isSome then
    .error "Cannot specify both default and default_factory"
  else
    .ok ⟨name, description, default, default_factory, hide, required, type⟩

/-- Function `transform_tool` (transformation.py lines 70-111).  The source body is
`return tool` under a `TODO: Implement transformation logic` comment: no
wrapper is built, the arguments `name`, `description` and `transform_args`
are ignored, and the very same tool object is returned. -/
def transform_tool {α : Type} (tool : α) (name : Option String)
    (description : Option String)
    (transform_args : List (String × ArgTransform)) : α :=
  tool

/-! ## Event-loop identity model (event_loop.py, loader.py, tools.py)

`asyncio.new_event_loop()` returns a loop object distinct from every loop
created before, embedded as a fresh-id allocator. -/

structure LoopAlloc where
  next : Nat
deriving DecidableEq, Repr

def new_event_loop (st : LoopAlloc) : Nat × LoopAlloc :=
  (st.next, ⟨st.next + 1⟩)

/-- The loops belonging to one connection: `load_server` (loader.py line 97)
constructs one `AsyncRunner`, whose `_start_background_loop` creates the
connection's single background loop. -/
structure ConnectionLoops where
  bridgeLoop : Nat
deriving DecidableEq, Repr

def connectBridge (st : LoopAlloc) : ConnectionLoops × LoopAlloc :=
  let p := new_event_loop st
  (⟨p.1⟩, p.2)

/-- Wrapper `create_tool.sync_executor` (tools.py lines 344-351): every invocation
calls `asyncio.new_event_loop()`, runs the executor coroutine to completion
on that loop with `run_until_complete`, then closes it.  The returned id is
the loop that carried this call's collaborator I/O. -/
def sync_executor_loop (st : LoopAlloc) : Nat × LoopAlloc :=
  new_event_loop st

/-! ## codegen.py — generate_types_file and the three generators

The generators build a list of lines and join them with newlines; they are
embedded as `List String` producers joined by `generate_types_file`. -/

/-- Python `str.capitalize()`: first character uppercased, the rest
lowercased. -/
def pyCapitalize (s : String) : String :=
  match s.toList with
  | [] => ""
  | c :: rest => String.mk (c.toUpper :: rest.map Char.toLower)

/-- Python `s.replace("-", "_")` (single-character pattern, so a character
map). -/
def pyReplaceDashUnderscore (s : String) : String :=
  String.mk (s.toList.map (fun c => if c = '-' then '_' else c))

/-- Splitting a character list at every occurrence of `sep`
(Python `str.split(sep)` for a one-character separator: `""` splits to
`[""]`, a trailing separator yields a trailing empty part). -/
def splitOnChar (sep : Char) : List Char → List (List Char)
  | [] => [[]]
  | c :: rest =>
    let r := splitOnChar sep rest
    if c = sep then [] :: r
    else
      match r with
      | h :: t => (c :: h) :: t
      | [] => [[c]]

/-- Python `s.split("_")`. -/
def pySplitUnderscore (s : String) : List String :=
  (splitOnChar '_' s.toList).map String.mk

/-- Helper `_to_pascal_case` (codegen.py lines 201-204):
`name.replace("-", "_").split("_")`, each part capitalized, joined. -/
def toPascalCase (name : String) : String :=
  String.join ((pySplitUnderscore (pyReplaceDashUnderscore name)).map
    pyCapitalize)

/-- Python `repr` of a default value, as interpolated into generated code
(for strings this assumes no embedded quotes or escapes, which Python would
render differently). -/
def pyRepr : Value → String
  | .null => "None"
  | .bool true => "True"
  | .bool false => "False"
  | .int n => toString n
  | .str s => "\x27" ++ s ++ "\x27"

/-- Helper `_json_type_to_python` (codegen.py lines 207-231).  An absent
`type` key defaults to `"string"`; an absent `items` key recurses on the
empty schema, whose mapped type is `"str"`. -/
def jsonTypeToPython : PropSchema → String
  | .mk t fmt _ _ items =>
    let jt := t.getD "string"
    if jt = "string" then
      if fmt = some "date-time" then "datetime"
      else if fmt = some "uuid" then "UUID"
      else "str"
    else if jt = "number" then "float"
    else if jt = "integer" then "int"
    else if jt = "boolean" then "bool"
    else if jt = "array" then
      match items with
      | some i => "list[" ++ jsonTypeToPython i ++ "]"
      | none => "list[str]"
    else if jt = "object" then "dict[str, Any]"
    else "Any"

/-- Helper `_json_type_to_typescript` (codegen.py lines 234-251). -/
def jsonTypeToTypescript : PropSchema → String
  | .mk t _ _ _ items =>
    let jt := t.getD "string"
    if jt = "string" then "string"
    else if jt = "number" ∨ jt = "integer" then "number"
    else if jt = "boolean" then "boolean"
    else if jt = "array" then
      match items with
      | some i => jsonTypeToTypescript i ++ "[]"
      | none => "string[]"
    else if jt = "object" then "Record<string, any>"
    else "any"

/-- One entry of the `schemas` argument to `generate_types_file`. -/
structure SchemaEntry where
  name : String
  description : Option String
  input_schema : InputSchema

/-- Truthiness of an optional string (`if description:`). -/
def optStrTruthy : Option String → Bool
  | some s => s != ""
  | none => false

/-- Condition `only is None or only == "input"` guarding every generated
class (the generators emit no output section at all). -/
def wantsInput (only : Option String) : Bool :=
  only.isNone || only == some "input"

def pydanticHeaderLines : List String :=
  ["# Auto-generated types from MCP server",
   "# DO NOT EDIT - regenerate with tools.generateTypes()",
   "",
   "from pydantic import BaseModel, Field",
   "from typing import Optional, Any",
   "from datetime import datetime",
   "from uuid import UUID",
   ""]

/-- One field line of `_generate_pydantic` (codegen.py lines 73-97). -/
def pydanticFieldLine (required : List String) (prop_name : String)
    (p : PropSchema) : String :=
  let python_type := jsonTypeToPython p
  let prop_desc := (p.description).getD ""
  let is_required := decide (prop_name ∈ required)
  let python_type :=
    if !is_required then "Optional[" ++ python_type ++ "]" else python_type
  let field_str :=
    match p.default with
    | some d => "Field(default=" ++ pyRepr d
    | none => if !is_required then "Field(default=None" else "Field("
  let field_str :=
    if prop_desc != "" then
      field_str ++ ", description=\"" ++ prop_desc ++ "\""
    else field_str
  let field_str := field_str ++ ")"
  "    " ++ prop_name ++ ": " ++ python_type ++ " = " ++ field_str

/-- Per-tool block of `_generate_pydantic` (codegen.py lines 50-100). -/
def pydanticClassLines (only : Option String) (s : SchemaEntry) :
    List String :=
  if wantsInput only then
    let class_name := toPascalCase s.name ++ "Input"
    let doc :=
      if optStrTruthy s.description then
        ["    \"\"\"" ++ (s.description).getD "" ++ "\"\"\"", ""]
      else []
    let body :=
      if s.input_schema.properties.isEmpty then ["    pass"]
      else s.input_schema.properties.map
        (fun kv => pydanticFieldLine s.input_schema.required kv.1 kv.2)
    ["class " ++ class_name ++ "(BaseModel):"] ++ doc ++ body ++ ["", ""]
  else []

def generatePydantic (schemas : List SchemaEntry) (only : Option String) :
    List String :=
  pydanticHeaderLines ++ (schemas.map (pydanticClassLines only)).flatten

def dataclassHeaderLines : List String :=
  ["# Auto-generated types from MCP server",
   "# DO NOT EDIT - regenerate with tools.generateTypes()",
   "",
   "from dataclasses import dataclass, field",
   "from typing import Optional, Any",
   "from datetime import datetime",
   "from uuid import UUID",
   ""]

/-- One field line of `_generate_dataclass` (codegen.py lines 139-152). -/
def dataclassFieldLine (required : List String) (prop_name : String)
    (p : PropSchema) : String :=
  let python_type := jsonTypeToPython p
  let is_required := decide (prop_name ∈ required)
  let python_type :=
    if !is_required then "Optional[" ++ python_type ++ "]" else python_type
  match p.default with
  | some d => "    " ++ prop_name ++ ": " ++ python_type ++ " = " ++ pyRepr d
  | none =>
    if !is_required then "    " ++ prop_name ++ ": " ++ python_type ++ " = None"
    else "    " ++ prop_name ++ ": " ++ python_type

/-- Per-tool block of `_generate_dataclass` (codegen.py lines 118-155). -/
def dataclassClassLines (only : Option String) (s : SchemaEntry) :
    List String :=
  if wantsInput only then
    let class_name := toPascalCase s.name ++ "Input"
    let doc :=
      if optStrTruthy s.description then
        ["    \"\"\"" ++ (s.description).getD "" ++ "\"\"\"", ""]
      else []
    let body :=
      if s.input_schema.properties.isEmpty then ["    pass"]
      else s.input_schema.properties.map
        (fun kv => dataclassFieldLine s.input_schema.required kv.1 kv.2)
    ["@dataclass", "class " ++ class_name ++ ":"] ++ doc ++ body ++ ["", ""]
  else []

def generateDataclass (schemas : List SchemaEntry) (only : Option String) :
    List String :=
  dataclassHeaderLines ++ (schemas.map (dataclassClassLines only)).flatten

def typescriptHeaderLines : List String :=
  ["// Auto-generated types from MCP server",
   "// DO NOT EDIT - regenerate with tools.generateTypes()",
   ""]

/-- Per-property lines of `_generate_typescript` (codegen.py lines 184-193):
an optional doc-comment line, then the field with a `?` marker when not
required.  The property's `default`, if any, is never read. -/
def typescriptFieldLines (required : List String) (prop_name : String)
    (p : PropSchema) : List String :=
  let ts_type := jsonTypeToTypescript p
  let prop_desc := (p.description).getD ""
  let is_required := decide (prop_name ∈ required)
  let descLines :=
    if prop_desc != "" then ["  /** " ++ prop_desc ++ " */"] else []
  let marker := if is_required then "" else "?"
  descLines ++ ["  " ++ prop_name ++ marker ++ ": " ++ ts_type ++ ";"]

/-- Per-tool block of `_generate_typescript` (codegen.py lines 168-196). -/
def typescriptClassLines (only : Option String) (s : SchemaEntry) :
    List String :=
  if wantsInput only then
    let interface_name := toPascalCase s.name ++ "Input"
    let doc :=
      if optStrTruthy s.description then
        ["/** " ++ (s.description).getD "" ++ " */"]
      else []
    doc ++ ["export interface " ++ interface_name ++ " \x7b"] ++
      (s.input_schema.properties.map
        (fun kv => typescriptFieldLines s.input_schema.required kv.1 kv.2)).flatten ++
      ["\x7d", ""]
  else []

def generateTypescript (schemas : List SchemaEntry) (only : Option String) :
    List String :=
  typescriptHeaderLines ++ (schemas.map (typescriptClassLines only)).flatten

/-- Dispatcher `generate_types_file` (codegen.py lines 11-34): selects the
generator by `format`, raising `ValueError` on any other format. -/
def generate_types_file (schemas : List SchemaEntry) (format : String)
    (only : Option String) : Except String String :=
  if format = "pydantic" then
    .ok (pyJoin "\n" (generatePydantic schemas only))
  else if format = "dataclass" then
    .ok (pyJoin "\n" (generateDataclass schemas only))
  else if format = "typescript" then
    .ok (pyJoin "\n" (generateTypescript schemas only))
  else
    .error ("Unknown format: " ++ format ++
      ". Use \x27pydantic\x27, \x27dataclass\x27, or \x27typescript\x27")

/-! ## Shared concrete fixtures -/

/-- The empty property schema (a bare `{}` in JSON). -/
def emptyProp : PropSchema := .mk none none none none none

/-- A collaborator that always answers with an empty successful result. -/
def noopClient : ClientFun := fun _ _ _ _ _ => .ok ⟨none, none, none, false⟩

/-- A collaborator answering with a hydrated `data` payload of `8`. -/
def dataClient : ClientFun := fun _ _ _ _ _ =>
  .ok ⟨some (.int 8), none, none, false⟩

/-- The default option values of `Tool.__call__`. -/
def defaultOpts : CallOptions := ⟨none, none, none, .bool true⟩

/-- Schema `\x7bproperties: \x7bx: integer\x7d, required: [x]\x7d` of the
codegen round-trip property. -/
def schemaA : SchemaEntry :=
  ⟨"t1", none, ⟨[("x", .mk (some "integer") none none none none)], ["x"]⟩⟩

/-- Schema `\x7bproperties: \x7by: \x7btype: string, default: "m"\x7d\x7d,
required: []\x7d` of the codegen round-trip property. -/
def schemaB : SchemaEntry :=
  ⟨"t2", none,
    ⟨[("y", .mk (some "string") none none (some (.str "m")) none)], []⟩⟩

/-- Modelled from the spec: the two ArgTransform construction invariants
stated in section 3 ("`hide=true` requires a default value or default
factory; default value and default factory cannot both be set"), used to
compare the spec's permitted combinations with the source's checks. -/
def specArgTransformAllowed (default : Option Value)
    (default_factory : Option (Unit → Value)) (hide : Bool) : Prop :=
  (hide = true → (default.isSome = true ∨ default_factory.isSome = true)) ∧
  ¬ (default.isSome = true ∧ default_factory.isSome = true)

/-! ## Helper lemmas -/

theorem strContains_parts (hay needle : String) (pre post : List Char)
    (h : hay.toList = pre ++ needle.toList ++ post) : strContains hay needle :=
  ⟨pre, post, h.symm⟩

theorem pyJoin_mem_split (sep x : String) :
    ∀ L : List String, x ∈ L →
      ∃ pre post : String, pyJoin sep L = pre ++ x ++ post := by
  intro L
  induction L with
  | nil => intro h; cases h
  | cons a rest ih =>
    intro h
    cases rest with
    | nil =>
      have hx : x = a := by cases h with
        | head => rfl
        | tail _ h2 => cases h2
      exact ⟨"", "", by simp [pyJoin, hx]⟩
    | cons b rest2 =>
      cases h with
      | head =>
        exact ⟨"", sep ++ pyJoin sep (b :: rest2), by
          simp [pyJoin, String.append_assoc]⟩
      | tail _ h2 =>
        obtain ⟨pre, post, hp⟩ := ih h2
        exact ⟨a ++ sep ++ pre, post, by
          simp [pyJoin, hp, String.append_assoc]⟩

/-- Every executor trace entry forwards exactly the validated kwargs. -/
theorem executor_trace_arguments (tool_name : String) (required : List String)
    (client : ClientFun) (kwargs : List (String × Value)) (opts : CallOptions) :
    ∀ call ∈ (executor tool_name required client kwargs opts).2,
      call.arguments = kwargs := by
  intro call hc
  unfold executor at hc
  dsimp only at hc
  split at hc
  · split at hc
    · simp at hc
      subst hc
      rfl
    · split at hc
      · split at hc
        · split at hc <;>
            (simp at hc; subst hc; rfl)
        · simp at hc; subst hc; rfl
        · simp at hc; subst hc; rfl
      · simp at hc; subst hc; rfl
  · simp at hc

/-! ## Claim theorems -/

/-- C2: for every Bridge (`AsyncRunner`), calling `run()` after `close()` has
been called raises the distinct "AsyncRunner is closed" error instead of
hanging or silently returning, and any later `close()` is a no-op on the
runner's state. -/
theorem bridge_run_after_close_errors_and_close_idempotent
    (st : AsyncRunnerState) (v : Value) :
    (st.close).run v = .error "AsyncRunner is closed" ∧
    (st.close).close = st.close := by
  constructor
  · by_cases h : st.closed <;>
      simp [AsyncRunnerState.close, AsyncRunnerState.run, h]
  · by_cases h : st.closed <;>
      simp [AsyncRunnerState.close, h]

/-- C9: collaborator I/O of a Tool invocation does not run on the
connection's Bridge loop.  `create_tool.sync_executor` creates a fresh event
loop on every call: starting from any allocation state, the loops used by two
successive invocations are distinct from the Bridge loop created at
connection time and from each other. -/
theorem tool_calls_use_fresh_loops_not_bridge (st0 : LoopAlloc) :
    ((sync_executor_loop (connectBridge st0).2).1 ≠
        (connectBridge st0).1.bridgeLoop) ∧
    ((sync_executor_loop (sync_executor_loop (connectBridge st0).2).2).1 ≠
        (connectBridge st0).1.bridgeLoop) ∧
    ((sync_executor_loop (connectBridge st0).2).1 ≠
        (sync_executor_loop (sync_executor_loop (connectBridge st0).2).2).1) := by
  simp [connectBridge, sync_executor_loop, new_event_loop]
  omega

/-- C3: a call that omits at least one required argument makes the executor
raise `MCPValidationError` carrying the tool's name and the full missing set,
and the collaborator's `call_tool` is never invoked (the call trace is
empty). -/
theorem executor_missing_required_validates_without_client
    (tool_name : String) (required : List String) (client : ClientFun)
    (kwargs : List (String × Value)) (opts : CallOptions)
    (h : required.toFinset \ (kwargs.map Prod.fst).toFinset ≠ ∅) :
    executor tool_name required client kwargs opts =
      (.validationError tool_name
        (required.toFinset \ (kwargs.map Prod.fst).toFinset), []) := by
  unfold executor
  simp [h]

/-- Witness for C3: calling the tool `"t"` requiring `x` and `y` with only
`x` yields a validation error naming `"t"` and `\x7by\x7d`, with an empty
collaborator trace. -/
theorem executor_missing_required_validates_without_client_witness :
    executor "t" ["x", "y"] noopClient [("x", Value.int 1)] defaultOpts =
      (.validationError "t" ({"y"} : Finset String), []) := by
  have h := executor_missing_required_validates_without_client
    "t" ["x", "y"] noopClient [("x", Value.int 1)] defaultOpts (by decide)
  rw [h]
  decide

/-- C4: on a successful collaborator response the executor returns, in
order of preference, the hydrated `result.data` when non-null, else the
non-null `result.structured_content`, else the first content block's text
(or the whole content sequence when the first block has no text, or when the
sequence is empty), else the raw result unchanged. -/
theorem executor_success_normalization
    (tool_name : String) (required : List String) (client : ClientFun)
    (kwargs : List (String × Value)) (opts : CallOptions)
    (result : CallToolResult)
    (hmiss : required.toFinset \ (kwargs.map Prod.fst).toFinset = ∅)
    (hclient : client tool_name kwargs opts.timeout opts.progress_handler
        opts.meta = .ok result)
    (hsucc : result.is_error = false) :
    executor tool_name required client kwargs opts =
      (.ok (normalizeResult result),
        [⟨tool_name, kwargs, opts.timeout, opts.progress_handler, opts.meta⟩]) ∧
    (∀ v, result.data = some v → normalizeResult result = .payload v) ∧
    (result.data = none → ∀ v, result.structured_content = some v →
        normalizeResult result = .payload v) ∧
    (result.data = none → result.structured_content = none →
        ∀ b bs, result.content = some (b :: bs) →
          (∀ t, b.text = some t → normalizeResult result = .text t) ∧
          (b.text = none → normalizeResult result = .contentSeq (b :: bs))) ∧
    (result.data = none → result.structured_content = none →
        result.content = none → normalizeResult result = .raw result) := by
  refine ⟨?_, ?_, ?_, ?_, ?_⟩
  · unfold executor
    simp [hmiss, hclient, hsucc]
  · intro v hv
    simp [normalizeResult, hv]
  · intro hd v hv
    simp [normalizeResult, hd, hv]
  · intro hd hs b bs hc
    constructor
    · intro t ht
      simp [normalizeResult, hd, hs, hc, ht]
    · intro ht
      simp [normalizeResult, hd, hs, hc, ht]
  · intro hd hs hc
    simp [normalizeResult, hd, hs, hc]

/-- Witness for C4: a collaborator that returns `data = 8` makes the bound
tool return the hydrated payload `8`, with exactly one recorded collaborator
call. -/
theorem executor_success_normalization_witness :
    executor "t" ["x"] dataClient [("x", Value.int 1)] defaultOpts =
      (.ok (.payload (.int 8)),
        [⟨"t", [("x", Value.int 1)], none, none, none⟩]) := by
  have h := executor_success_normalization "t" ["x"] dataClient
    [("x", Value.int 1)] defaultOpts ⟨some (.int 8), none, none, false⟩
    (by decide) (by rfl) (by rfl)
  rw [h.1]
  decide

/-- C5: for a CapabilityDescriptor whose input schema declares disjoint
required set `R` and optional set `O` (its properties are exactly `R ∪ O`
and its required list enumerates `R`), the bound Tool satisfies
`required_args == R` and `optional_args == O` as sets; and an empty input
schema yields empty required and optional lists. -/
theorem tool_schema_required_optional_sets
    (name : String) (description : Option String) (s : InputSchema)
    (R O : Finset String)
    (hreq : s.required.toFinset = R)
    (hprops : (s.properties.map Prod.fst).toFinset = R ∪ O)
    (hdisj : Disjoint R O) :
    ((mkToolSchema name description s).required_args.toFinset = R ∧
      (mkToolSchema name description s).optional_args.toFinset = O) ∧
    ∀ (n : String) (d : Option String),
      (mkToolSchema n d ⟨[], []⟩).required_args = [] ∧
      (mkToolSchema n d ⟨[], []⟩).optional_args = [] := by
  refine ⟨⟨?_, ?_⟩, fun n d => ⟨rfl, rfl⟩⟩
  · rw [← hreq]
    ext x
    simp [mkToolSchema, List.mem_dedup]
  · ext x
    simp only [mkToolSchema, List.toFinset_filter, Finset.mem_filter,
      List.mem_toFinset, decide_eq_true_eq]
    rw [← List.mem_toFinset, hprops]
    constructor
    · rintro ⟨hmem, hnot⟩
      have hnotR : x ∉ R := fun hR => hnot (by
        rw [← hreq] at hR; exact List.mem_toFinset.mp hR)
      rcases Finset.mem_union.mp hmem with h | h
      · exact absurd h hnotR
      · exact h
    · intro hO
      have hnotR : x ∉ R := fun hR => Finset.disjoint_left.mp hdisj hR hO
      exact ⟨Finset.mem_union_right _ hO, fun hx =>
        hnotR (by rw [← hreq]; exact List.mem_toFinset.mpr hx)⟩

/-- Witness for C5: the schema with properties `a`, `b` and required `[a]`
binds `required_args = \x7ba\x7d` and `optional_args = \x7bb\x7d`. -/
theorem tool_schema_required_optional_sets_witness :
    (mkToolSchema "n" none
        ⟨[("a", emptyProp), ("b", emptyProp)], ["a"]⟩).required_args.toFinset
      = ({"a"} : Finset String) ∧
    (mkToolSchema "n" none
        ⟨[("a", emptyProp), ("b", emptyProp)], ["a"]⟩).optional_args.toFinset
      = ({"b"} : Finset String) := by
  have h := tool_schema_required_optional_sets "n" none
    ⟨[("a", emptyProp), ("b", emptyProp)], ["a"]⟩ {"a"} {"b"}
    (by decide) (by decide) (by decide)
  exact h.1

/-- C8: looking up a name that is absent from the collection (and does not
start with an underscore) fails with an AttributeError whose message contains
the requested name and every canonical name of the collection. -/
theorem collection_lookup_unknown_name_lists_all
    {α : Type} (tools : List (String × α)) (name : String)
    (hus : pyStartsWithUnderscore name = false)
    (habs : tools.lookup name = none) :
    ∃ msg, toolCollectionGetattr tools name = Except.error msg ∧
      strContains msg name ∧
      ∀ k ∈ tools.map Prod.fst, strContains msg k := by
  refine ⟨"No tool named \x27" ++ name ++ "\x27. Available: " ++
      pyListRepr (tools.map Prod.fst), ?_, ?_, ?_⟩
  · unfold toolCollectionGetattr
    simp [hus, habs]
  · apply strContains_parts _ _ ("No tool named \x27").toList
      (("\x27. Available: " ++ pyListRepr (tools.map Prod.fst)).toList)
    simp [String.toList, String.data_append, List.append_assoc]
  · intro k hk
    have hq : ("\x27" ++ k ++ "\x27") ∈
        (tools.map Prod.fst).map (fun k2 => "\x27" ++ k2 ++ "\x27") :=
      List.mem_map_of_mem _ hk
    obtain ⟨p, q, hp⟩ := pyJoin_mem_split ", " ("\x27" ++ k ++ "\x27") _ hq
    have hpd := congrArg String.data hp
    simp only [String.data_append, List.append_assoc] at hpd
    apply strContains_parts _ _
      (("No tool named \x27").toList ++ name.toList ++
        ("\x27. Available: ").toList ++ ("[").toList ++ p.toList ++
        ("\x27").toList)
      (("\x27").toList ++ q.toList ++ ("]").toList)
    simp only [pyListRepr, String.toList, String.data_append,
      List.append_assoc]
    rw [hpd]
    simp [List.append_assoc]

/-- Witness for C8: looking up "frobnicate" among \x7b"search", "list"\x7d
produces a message containing "frobnicate", "search" and "list". -/
theorem collection_lookup_unknown_name_lists_all_witness :
    ∃ msg,
      toolCollectionGetattr [("search", (0 : Nat)), ("list", 1)] "frobnicate" =
        Except.error msg ∧
      strContains msg "frobnicate" ∧ strContains msg "search" ∧
      strContains msg "list" := by
  obtain ⟨msg, h1, h2, h3⟩ := collection_lookup_unknown_name_lists_all
    [("search", (0 : Nat)), ("list", 1)] "frobnicate" (by decide) (by decide)
  exact ⟨msg, h1, h2, h3 "search" (by decide), h3 "list" (by decide)⟩

/-- C10: the keyword names timeout, progress_handler, meta and
raise_on_error are consumed by `Tool.__call__` as call options: no recorded
collaborator call carries any of them among its arguments, and a tool whose
required set contains one of them can only ever fail validation with that
name among the missing set. -/
theorem call_options_consumed_not_forwarded
    (tool_name : String) (required : List String) (client : ClientFun)
    (args : List (String × Value)) :
    (∀ call ∈ (toolCall tool_name required client args).2,
        ∀ kv ∈ call.arguments, kv.1 ∉ callOptionNames) ∧
    (∀ n ∈ callOptionNames, n ∈ required →
        ∃ missing, (toolCall tool_name required client args).1 =
            .validationError tool_name missing ∧ n ∈ missing) := by
  constructor
  · intro call hc kv hkv hmem
    unfold toolCall at hc
    dsimp only at hc
    have harg := executor_trace_arguments tool_name required client
      (args.filter (fun kv => decide (kv.1 ∉ callOptionNames)))
      ⟨args.lookup "timeout", args.lookup "progress_handler",
        args.lookup "meta",
        (args.lookup "raise_on_error").getD (.bool true)⟩ call hc
    rw [harg] at hkv
    have hpred := (List.mem_filter.mp hkv).2
    simp only [decide_eq_true_eq] at hpred
    exact hpred hmem
  · intro n hn hreq
    have hkeys : n ∉ (args.filter
        (fun kv => decide (kv.1 ∉ callOptionNames))).map Prod.fst := by
      intro hmem
      obtain ⟨kv, hkv, hfst⟩ := List.mem_map.mp hmem
      have hpred := (List.mem_filter.mp hkv).2
      simp only [decide_eq_true_eq] at hpred
      rw [hfst] at hpred
      exact hpred hn
    have hne : required.toFinset \
        ((args.filter (fun kv => decide (kv.1 ∉ callOptionNames))).map
          Prod.fst).toFinset ≠ ∅ := by
      intro h0
      have hmemd : n ∈ required.toFinset \
          ((args.filter (fun kv => decide (kv.1 ∉ callOptionNames))).map
            Prod.fst).toFinset :=
        Finset.mem_sdiff.mpr ⟨List.mem_toFinset.mpr hreq,
          fun hx => hkeys (List.mem_toFinset.mp hx)⟩
      rw [h0] at hmemd
      exact absurd hmemd (Finset.not_mem_empty n)
    refine ⟨_, ?_, Finset.mem_sdiff.mpr ⟨List.mem_toFinset.mpr hreq,
      fun hx => hkeys (List.mem_toFinset.mp hx)⟩⟩
    unfold toolCall executor
    dsimp only
    rw [if_neg hne]

/-- Witness for C10: calling tool `"t"` requiring "timeout" and "q" with the
keywords timeout and q binds timeout as a call option, so validation reports
"timeout" missing. -/
theorem call_options_consumed_not_forwarded_witness :
    ∃ missing,
      (toolCall "t" ["q", "timeout"] noopClient
          [("timeout", Value.int 5), ("q", Value.str "a")]).1 =
        .validationError "t" missing ∧ "timeout" ∈ missing := by
  exact (call_options_consumed_not_forwarded "t" ["q", "timeout"] noopClient
    [("timeout", Value.int 5), ("q", Value.str "a")]).2
    "timeout" (by decide) (by decide)

/-- C1: evaluation of the code at the claim's scenario.  A hide+default
ArgTransform rule is itself constructible, but `transform_tool` returns the
base tool object unchanged for every input, so the "derived" tool for a base
requiring `x` and `y` still has required set `\x7bx, y\x7d` (not `\x7bx\x7d`),
and invoking it with only `x` raises a validation error without ever
dispatching to the collaborator (so `y` is never bound to the configured
default). -/
theorem transform_tool_stub_ignores_rules :
    (∃ t, mkArgTransform none none (some (Value.int 7)) none true none none
        = .ok t) ∧
    (∀ (base : ToolSchemaM) (newName : Option String)
        (rules : List (String × ArgTransform)),
        transform_tool base newName none rules = base) ∧
    ((mkToolSchema "base" none
        ⟨[("x", emptyProp), ("y", emptyProp)],
          ["x", "y"]⟩).required_args.toFinset
      = ({"x", "y"} : Finset String)) ∧
    ((mkToolSchema "base" none
        ⟨[("x", emptyProp), ("y", emptyProp)],
          ["x", "y"]⟩).required_args.toFinset
      ≠ ({"x"} : Finset String)) ∧
    executor "base" ["x", "y"] noopClient [("x", Value.int 1)] defaultOpts =
      (.validationError "base" ({"y"} : Finset String), []) := by
  exact ⟨⟨_, rfl⟩, fun _ _ _ => rfl, by decide, by decide, by decide⟩

/-- Counterexample for C6: supplying a default factory with `hide=false` and
no default value satisfies both of the spec's stated ArgTransform
invariants, yet `model_post_init` rejects it. -/
theorem argtransform_spec_allowed_combination_rejected :
    specArgTransformAllowed none (some (fun _ => Value.null)) false ∧
    mkArgTransform none none none (some (fun _ => Value.null)) false none
      none = .error "default_factory requires hide=True" := by
  refine ⟨⟨?_, ?_⟩, rfl⟩
  · intro h; simp at h
  · rintro ⟨h1, _⟩; simp at h1

/-- C6 (amended): hide without any default raises Configuration, a default
value together with a default factory raises Configuration, a default
factory without `hide=true` also raises Configuration, and every remaining
combination constructs successfully. -/
theorem argtransform_construction_classification
    (name description : Option String) (default : Option Value)
    (default_factory : Option (Unit → Value)) (hide : Bool)
    (required : Option Bool) (type : Option String) :
    ((hide = true ∧ default = none ∧ default_factory = none) →
        mkArgTransform name description default default_factory hide required
          type = .error "hide=True requires default or default_factory") ∧
    ((default.isSome = true ∧ default_factory.isSome = true) →
        ∃ msg, mkArgTransform name description default default_factory hide
          required type = .error msg) ∧
    ((default_factory.isSome = true ∧ hide = false) →
        mkArgTransform name description default default_factory hide required
          type = .error "default_factory requires hide=True") ∧
    ((¬ (default_factory.isSome = true ∧ hide = false) ∧
      ¬ (hide = true ∧ default = none ∧ default_factory = none) ∧
      ¬ (default.isSome = true ∧ default_factory.isSome = true)) →
        ∃ t, mkArgTransform name description default default_factory hide
          required type = .ok t) := by
  refine ⟨?_, ?_, ?_, ?_⟩
  · rintro ⟨h1, h2, h3⟩
    subst h1; subst h2; subst h3
    rfl
  · rintro ⟨h1, h2⟩
    rcases default with _ | dv
    · simp at h1
    rcases default_factory with _ | f
    · simp at h2
    cases hide
    · exact ⟨_, rfl⟩
    · exact ⟨_, rfl⟩
  · rintro ⟨h1, h2⟩
    subst h2
    rcases default_factory with _ | f
    · simp at h1
    rfl
  · rintro ⟨h1, h2, h3⟩
    rcases default with _ | dv <;> rcases default_factory with _ | f <;>
      cases hide
    · exact ⟨_, rfl⟩
    · exact absurd ⟨rfl, rfl, rfl⟩ h2
    · exact absurd ⟨rfl, rfl⟩ h1
    · exact ⟨_, rfl⟩
    · exact ⟨_, rfl⟩
    · exact ⟨_, rfl⟩
    · exact absurd ⟨rfl, rfl⟩ h1
    · exact absurd ⟨rfl, rfl⟩ h3

/-- Witness for C6 (amended): one concrete input per branch of the
classification. -/
theorem argtransform_construction_classification_witness :
    mkArgTransform none none none none true none none =
      .error "hide=True requires default or default_factory" ∧
    (∃ msg, mkArgTransform none none (some Value.null)
        (some (fun _ => Value.null)) true none none = .error msg) ∧
    mkArgTransform none none none (some (fun _ => Value.null)) false none
        none = .error "default_factory requires hide=True" ∧
    (∃ t, mkArgTransform none none (some (Value.int 3)) none false none none
        = .ok t) := by
  refine ⟨?_, ?_, ?_, ?_⟩
  · exact (argtransform_construction_classification none none none none true
      none none).1 ⟨rfl, rfl, rfl⟩
  · exact (argtransform_construction_classification none none
      (some Value.null) (some (fun _ => Value.null)) true none none).2.1
      ⟨rfl, rfl⟩
  · exact (argtransform_construction_classification none none none
      (some (fun _ => Value.null)) false none none).2.2.1 ⟨rfl, rfl⟩
  · exact (argtransform_construction_classification none none
      (some (Value.int 3)) none false none none).2.2.2
      ⟨by simp, by simp, by simp⟩

set_option maxRecDepth 4096 in
/-- Counterexample for C7: the typescript generator emits no default literal
at all for schema `\x7by: string, default "m"\x7d` — the generated text
contains neither `\x27m\x27` nor `"m"` nor even an `=` — because the
generator never reads a property's default. -/
theorem typescript_output_has_no_default_literal :
    (∃ ts, generate_types_file [schemaB] "typescript" none = .ok ts ∧
        ¬ strContains ts "\x27m\x27" ∧ ¬ strContains ts "\x22m\x22" ∧
        ¬ strContains ts "=") ∧
    (∀ d : Value,
        generateTypescript
          [⟨"t2", none,
            ⟨[("y", .mk (some "string") none none (some d) none)], []⟩⟩]
          none =
        generateTypescript
          [⟨"t2", none,
            ⟨[("y", .mk (some "string") none none none none)], []⟩⟩]
          none) := by
  constructor
  · refine ⟨_, rfl, ?_, ?_, ?_⟩ <;> decide
  · intro d; rfl

/-- C7 (amended): for every supported format the schema
`\x7bx: integer, required [x]\x7d` renders a non-optional integer field
`x`; for pydantic and dataclass the schema
`\x7by: string, default "m"\x7d` renders an optional field `y` with default
literal `\x27m\x27`, while typescript renders `y` optional with no default
literal. -/
theorem codegen_field_rendering :
    ("    x: int = Field()" ∈ generatePydantic [schemaA] none) ∧
    ("    x: int" ∈ generateDataclass [schemaA] none) ∧
    ("  x: number;" ∈ generateTypescript [schemaA] none) ∧
    ("    y: Optional[str] = Field(default=\x27m\x27)" ∈
        generatePydantic [schemaB] none) ∧
    ("    y: Optional[str] = \x27m\x27" ∈ generateDataclass [schemaB] none) ∧
    ("  y?: string;" ∈ generateTypescript [schemaB] none) := by
  decide

end FMCP
